import Mathlib

/-!
Verification of the tabix-py wrapper (src/tabix/tabixffi.py) against its
specification.  The wrapper fronts the native tabix C engine; the engine's
own sources are not part of src/, so the engine-side operations (binning
scheme, query engine, region parser, index builder, sequence-name dictionary)
are modelled from the specification, while the wrapper-side behaviour
(constructor dispatch, generator cleanup, close, the __call__ argument
dispatch, the sequences property) is embedded from the Python source.
-/

/-- Error taxonomy of the specification (§7). -/
inductive TabixError
  | UnsortedInput
  | CoordinateOverflow
  | CorruptBlock
  | TruncatedIndex
  | BadMagic
  | UnknownSequence
  | InvalidRange
  | IndexMissing
  deriving DecidableEq, Repr

deriving instance DecidableEq for Except

/-- One indexed record: sequence name plus its 0-based half-open interval. -/
structure Record where
  seq : String
  start : Nat
  stop : Nat
  deriving DecidableEq, Repr

/-- Modelled from the spec (§4.3): the bins of one level of the scheme that
intersect a query window, given the level's bin offset and the window's
lowest and highest bin number at that level. -/
def levelBins (offset lo hi : Nat) : List Nat :=
  (List.range (hi + 1 - lo)).map (fun i => offset + lo + i)

/-- Modelled from the spec (§4.3): `binOf (start, end) -> bin id`, the single
finest-level bin that fully contains the interval `[b, e)` (5 levels, 14-bit
finest shift, 3 bits of fan-out per level, so widths 16384, 131072, 1048576,
8388608, 67108864 from finest to coarsest). -/
def binOf (b e : Nat) : Nat :=
  if b / 16384 = (e - 1) / 16384 then 4681 + b / 16384
  else if b / 131072 = (e - 1) / 131072 then 585 + b / 131072
  else if b / 1048576 = (e - 1) / 1048576 then 73 + b / 1048576
  else if b / 8388608 = (e - 1) / 8388608 then 9 + b / 8388608
  else if b / 67108864 = (e - 1) / 67108864 then 1 + b / 67108864
  else 0

/-- Modelled from the spec (§4.3): `binsOverlapping (start, end)` enumerates
every bin of every level whose span intersects `[b, e)` — the candidate set
the Query Engine scans. -/
def binsOverlapping (b e : Nat) : List Nat :=
  0 :: (levelBins 1 (b / 67108864) ((e - 1) / 67108864) ++
        levelBins 9 (b / 8388608) ((e - 1) / 8388608) ++
        levelBins 73 (b / 1048576) ((e - 1) / 1048576) ++
        levelBins 585 (b / 131072) ((e - 1) / 131072) ++
        levelBins 4681 (b / 16384) ((e - 1) / 16384))

/-- True overlap of two 0-based half-open intervals (spec §4.6 step 7). -/
def overlaps (rb re qb qe : Nat) : Bool :=
  decide (rb < qe) && decide (qb < re)

/-- Modelled from the spec (§4.6): the query engine collects the records filed
under the candidate bins of `[qb, qe)` (the over-approximating index scan,
steps 2–5) and then keeps only those that truly overlap the query (step 7). -/
def query (recs : List Record) (name : String) (qb qe : Nat) : List Record :=
  ((recs.filter (fun r =>
      decide (r.seq = name) &&
      (binsOverlapping qb qe).contains (binOf r.start r.stop))).filter
    (fun r => overlaps r.start r.stop qb qe))

/-- The brute-force linear-scan oracle of spec §8: every record of the
sequence whose interval intersects the query range. -/
def bruteForce (recs : List Record) (name : String) (qb qe : Nat) : List Record :=
  recs.filter (fun r => decide (r.seq = name) && overlaps r.start r.stop qb qe)

/-- The end-to-end example of spec §8: records chr1 [1737, 2090),
chr1 [2090, 3000), chr2 [10, 20), 0-based half-open. -/
def exampleRecs : List Record :=
  [⟨"chr1", 1737, 2090⟩, ⟨"chr1", 2090, 3000⟩, ⟨"chr2", 10, 20⟩]

/-- A parsed region: sequence name plus 0-based half-open bounds. -/
structure Region where
  seq : String
  beg : Nat
  stop : Nat
  deriving DecidableEq, Repr

/-- Modelled from the spec (§4.2): the sentinel maximum coordinate standing
for an unbounded / whole-sequence upper bound. -/
def sequenceMaxEnd : Nat := 536870912

/-- Split a character list at every occurrence of a separator character. -/
def splitOnChar (c : Char) : List Char → List (List Char)
  | [] => [[]]
  | x :: xs =>
    match splitOnChar c xs with
    | [] => if x = c then [[], []] else [[x]]
    | y :: ys => if x = c then [] :: y :: ys else (x :: y) :: ys

/-- Read a non-empty all-digit character list as a decimal number. -/
def charsToNat : List Char → Option Nat
  | [] => none
  | l =>
    if l.all (fun ch => ch.isDigit) then
      some (l.foldl (fun acc ch => 10 * acc + (ch.toNat - 48)) 0)
    else none

/-- Modelled from the spec (§4.2): the Region Parser for the grammar
`SEQNAME[:START[-END]]`.  SEQNAME must match a dictionary name exactly
(case-sensitive) or the parse fails UnknownSequence; START/END are 1-based
inclusive and become 0-based half-open via `start0 = START-1`, `end0 = END`;
an omitted END means the sentinel maximum; `END < START` fails InvalidRange;
a bare SEQNAME is the whole-sequence range `[0, sentinel)`. -/
def parseRegion (names : List String) (s : String) : Except TabixError Region :=
  match splitOnChar ':' s.data with
  | [nameChars] =>
    let name := String.mk nameChars
    if names.contains name then Except.ok ⟨name, 0, sequenceMaxEnd⟩
    else Except.error TabixError.UnknownSequence
  | [nameChars, rangeChars] =>
    let name := String.mk nameChars
    if names.contains name then
      match splitOnChar '-' rangeChars with
      | [stChars] =>
        match charsToNat stChars with
        | some st => Except.ok ⟨name, st - 1, sequenceMaxEnd⟩
        | none => Except.error TabixError.InvalidRange
      | [stChars, enChars] =>
        match charsToNat stChars, charsToNat enChars with
        | some st, some en =>
          if en < st then Except.error TabixError.InvalidRange
          else Except.ok ⟨name, st - 1, en⟩
        | _, _ => Except.error TabixError.InvalidRange
      | _ => Except.error TabixError.InvalidRange
    else Except.error TabixError.UnknownSequence
  | _ => Except.error TabixError.InvalidRange

/-- Modelled from the spec: the string-query path of `Tabix.__call__`
(ti_querys): parse the region expression, then run the query engine with the
normalized bounds. -/
def queryString (names : List String) (recs : List Record) (s : String) :
    Except TabixError (List Record) :=
  (parseRegion names s).map (fun reg => query recs reg.seq reg.beg reg.stop)

/-- Modelled from the spec (§4.6 step 1 and §6): the query entry point —
a sequence name absent from the index's dictionary fails UnknownSequence,
otherwise the engine scans and filters. -/
def queryEngine (names : List String) (recs : List Record) (name : String)
    (qb qe : Nat) : Except TabixError (List Record) :=
  if names.contains name then Except.ok (query recs name qb qe)
  else Except.error TabixError.UnknownSequence

/-- Two successive records violate the sortedness precondition when they are
in the same sequence and the second one's start is smaller (spec §4.4). -/
def badPair (r1 r2 : Record) : Bool :=
  decide (r1.seq = r2.seq) && decide (r2.start < r1.start)

/-- An input stream contains a decreasing start within one sequence: some
adjacent pair of records is a `badPair`. -/
def hasDecreasingPair : List Record → Bool
  | r1 :: r2 :: rest => badPair r1 r2 || hasDecreasingPair (r2 :: rest)
  | _ => false

/-- Modelled from the spec (§4.4): the Index Builder's streaming loop.  It
carries the previously seen record, compares successive starts within a
sequence, aborts with UnsortedInput on a decrease, and otherwise files each
record under its bin.  The returned value models the persisted index
content: an error means the build aborted and nothing was written. -/
def buildGo : Option Record → List Record → Except TabixError (List (Nat × Record))
  | _, [] => Except.ok []
  | prev, r :: rs =>
    if (match prev with | some p => badPair p r | none => false) then
      Except.error TabixError.UnsortedInput
    else
      Except.map (fun rest => (binOf r.start r.stop, r) :: rest) (buildGo (some r) rs)

/-- Modelled from the spec (§4.4): `build(sortedRecords, ...) -> Index`,
a single pass with no previous record at the start. -/
def buildIndex (recs : List Record) : Except TabixError (List (Nat × Record)) :=
  buildGo none recs

/-- Where control is inside the generator body of `Tabix.__call__`: still in
the read/yield loop with some records left for ti_read to return, or past it. -/
inductive GenPhase
  | running (pending : List String)
  | finished
  deriving DecidableEq, Repr

/-- A query iterator: the generator's control point plus whether the native
iterator handle has been destroyed. -/
structure GenState where
  phase : GenPhase
  destroyed : Bool
  deriving DecidableEq, Repr

/-- Models `C.ti_iter_destroy(t_iter)` — the only operation that destroys the
native iterator handle. -/
def tiIterDestroy (g : GenState) : GenState :=
  { g with destroyed := true }

/-- The `finally` clause of `Tabix.__call__` (tabixffi.py:139-140): it calls
`ti_iter_destroy` and Python runs it whenever control leaves the try block. -/
def finallyClause (g : GenState) : GenState :=
  tiIterDestroy g

/-- One pull on the generator (`next`): `ti_read` either produces the next
record, which is yielded, or returns NULL, upon which the while loop ends,
the finally clause runs and the generator finishes (StopIteration).  A pull
on a finished generator yields nothing and changes nothing. -/
def genNext (g : GenState) : Option String × GenState :=
  match g.phase with
  | GenPhase.finished => (none, g)
  | GenPhase.running [] => (none, finallyClause { g with phase := GenPhase.finished })
  | GenPhase.running (s :: rest) => (some s, { g with phase := GenPhase.running rest })

/-- `generator.close()`, which Python invokes when the caller abandons the
iterator early: GeneratorExit is raised at the yield, so control leaves the
try block and the finally clause runs. -/
def genClose (g : GenState) : GenState :=
  match g.phase with
  | GenPhase.finished => g
  | GenPhase.running _ => finallyClause { g with phase := GenPhase.finished }

/-- An error raised while iterating (thrown into the generator at the
yield): the exception propagates to the caller, but on the way out of the
try block the finally clause runs. -/
def genThrow (g : GenState) : GenState :=
  match g.phase with
  | GenPhase.finished => g
  | GenPhase.running _ => finallyClause { g with phase := GenPhase.finished }

/-- A fresh iterator over the records the native iterator will yield; the
native handle exists and is not yet destroyed. -/
def initGen (records : List String) : GenState :=
  ⟨GenPhase.running records, false⟩

/-- Pull the generator `n` times. -/
def pulls : Nat → GenState → GenState
  | 0, g => g
  | n + 1, g => pulls n (genNext g).2

/-- The column configuration `Tabix.build` passes to ti_index_build
(tabixffi.py:109-121): 1-based sequence/start/end columns, the comment
character and the leading-line skip count. -/
structure BuildConf where
  seq_col : Nat
  start_col : Nat
  end_col : Nat
  comment : Char
  line_skip : Nat
  deriving DecidableEq, Repr

/-- What `Tabix.__init__` (tabixffi.py:82-97) does for a given path,
depending on whether the companion .tbi file exists: open the existing
index, build one itself (with the extension-derived configuration) and then
open it, or raise an exception without opening any handle. -/
inductive InitAction
  | openExisting
  | buildThenOpen (conf : BuildConf)
  | raised (msg : String)
  deriving DecidableEq, Repr

/-- `str.endswith` on the file name, as a suffix test on the character
lists. -/
def endsWithStr (s sfx : String) : Bool :=
  sfx.data.isSuffixOf s.data

/-- The constructor dispatch of `Tabix.__init__` (tabixffi.py:82-97): with a
.tbi present, open it; otherwise build by extension — `.bed.gz` with the
build defaults (1, 2, 3, '#', 0), `.gff.gz`/`.gtf.gz` with (1, 4, 5, '#', 0),
`.vcf.gz` with (1, 2, 0, '#', 0) — and open the fresh index, or raise for an
unknown extension. -/
def tabixInit (fn : String) (tbiExists : Bool) : InitAction :=
  if tbiExists then InitAction.openExisting
  else if endsWithStr fn ".bed.gz" then InitAction.buildThenOpen ⟨1, 2, 3, '#', 0⟩
  else if endsWithStr fn ".gff.gz" || endsWithStr fn ".gtf.gz" then
    InitAction.buildThenOpen ⟨1, 4, 5, '#', 0⟩
  else if endsWithStr fn ".vcf.gz" then InitAction.buildThenOpen ⟨1, 2, 0, '#', 0⟩
  else InitAction.raised (fn ++ ".tbi not found and filetype not known")

/-- The allocation state of the native tabix_t handle held in `self._tabix`. -/
inductive HandleState
  | allocated
  | freed
  deriving DecidableEq, Repr

/-- A fault of the native layer. -/
inductive NativeFault
  | doubleFree
  deriving DecidableEq, Repr

/-- Modelled from the spec (§9): the native library manages the handle as a
raw pointer with an open/destroy pair; ti_close destroys (frees) it and
releases its stream handles.  Destroying a raw handle that was already
destroyed is a double free — undefined behaviour in C, modelled as a
fault. -/
def ti_close : HandleState → Except NativeFault HandleState
  | HandleState.allocated => Except.ok HandleState.freed
  | HandleState.freed => Except.error NativeFault.doubleFree

/-- `Tabix.close` (tabixffi.py:151-152): it forwards unconditionally to
`C.ti_close(self._tabix)`; there is no closed flag and `self._tabix` is
never cleared, so every call re-invokes the native close on the same
handle. -/
def tabixClose (h : HandleState) : Except NativeFault HandleState :=
  ti_close h

/-- `Tabix.__del__` (tabixffi.py:144-149): destroy and close inside a
`try/except: pass`, so every fault is swallowed and the handle state is left
as it was. -/
def tabixDel (h : HandleState) : HandleState :=
  match tabixClose h with
  | Except.ok h2 => h2
  | Except.error _ => h

/-- Modelled from the spec (§3): ti_seqname exposes the index's
sequence-name dictionary as an array of n entries, entry i being the name
whose implicit numeric id is i (0-based insertion order). -/
def ti_seqname (dict : List String) : Nat → String :=
  fun i => dict.getD i ""

/-- The `Tabix.sequences` property (tabixffi.py:99-107): the list
comprehension `[ffi.string(cnames[i]).decode() for i in range(n)]` over the
native name array. -/
def tabixSequences (dict : List String) : List String :=
  (List.range dict.length).map (ti_seqname dict)

/-- The native call a `Tabix.__call__` invocation would issue. -/
inductive NativeQuery
  | querys (region : String)
  | queryi (region : String) (qb qe : Int)
  deriving DecidableEq, Repr

/-- A Python-level error raised by the generator body before any native
call. -/
inductive PyError
  | assertionError
  | typeError
  deriving DecidableEq, Repr

/-- The argument dispatch at the top of `Tabix.__call__`
(tabixffi.py:123-128), executed before any native call: with both bounds
omitted the region string goes to ti_querys; with both present the triple
goes to ti_query; with start omitted but end present the `assert end is
None` fails (AssertionError) before ti_querys/ti_query runs, so no native
iterator is created and the engine state is untouched; with start present
but end omitted, cffi refuses to pass None where ti_query expects an int
(TypeError), likewise before any native call. -/
def callDispatch (region : String) (start stop : Option Int) :
    Except PyError NativeQuery :=
  match start, stop with
  | none, none => Except.ok (NativeQuery.querys region)
  | none, some _ => Except.error PyError.assertionError
  | some s, some e => Except.ok (NativeQuery.queryi region s e)
  | some _, none => Except.error PyError.typeError

lemma mem_levelBins (offset lo hi k : Nat) (h1 : lo ≤ k) (h2 : k ≤ hi) :
    offset + k ∈ levelBins offset lo hi := by
  unfold levelBins
  refine List.mem_map.mpr ⟨k - lo, List.mem_range.mpr (by omega), by omega⟩

/-- Correctness of the binning scheme: the single bin a record is filed under
is always among the candidate bins of any query range the record overlaps. -/
lemma binOf_mem_binsOverlapping {rb re qb qe : Nat}
    (_hr : rb < re) (hq : qb < qe) (h1 : rb < qe) (h2 : qb < re) :
    binOf rb re ∈ binsOverlapping qb qe := by
  have hb1 : rb ≤ qe - 1 := by omega
  have hb2 : qb ≤ re - 1 := by omega
  unfold binOf binsOverlapping
  simp only [List.mem_cons, List.mem_append]
  split_ifs with h14 h17 h20 h23 h26
  · refine Or.inr (Or.inr ?_)
    refine mem_levelBins 4681 _ _ _ ?_ (Nat.div_le_div_right hb1)
    rw [h14]; exact Nat.div_le_div_right hb2
  · refine Or.inr (Or.inl (Or.inr ?_))
    refine mem_levelBins 585 _ _ _ ?_ (Nat.div_le_div_right hb1)
    rw [h17]; exact Nat.div_le_div_right hb2
  · refine Or.inr (Or.inl (Or.inl (Or.inr ?_)))
    refine mem_levelBins 73 _ _ _ ?_ (Nat.div_le_div_right hb1)
    rw [h20]; exact Nat.div_le_div_right hb2
  · refine Or.inr (Or.inl (Or.inl (Or.inl (Or.inr ?_))))
    refine mem_levelBins 9 _ _ _ ?_ (Nat.div_le_div_right hb1)
    rw [h23]; exact Nat.div_le_div_right hb2
  · refine Or.inr (Or.inl (Or.inl (Or.inl (Or.inl ?_))))
    refine mem_levelBins 1 _ _ _ ?_ (Nat.div_le_div_right hb1)
    rw [h26]; exact Nat.div_le_div_right hb2
  · exact Or.inl rfl

/-- C1: for every indexed data set (all record intervals non-empty) and every
query range `[qb, qe)`, the query returns exactly the records of the named
sequence whose own half-open interval intersects the range — the candidate
scan never loses an overlapping record and the final filter removes every
non-overlapping one; on the example data, `query("chr1", 2090, 3000)` returns
only the second record (end = query start does not overlap) and
`query("chr2", 0, 5)` is empty. -/
theorem c1_overlap_exact (recs : List Record) (name : String) (qb qe : Nat)
    (hv : ∀ r ∈ recs, r.start < r.stop) (hq : qb < qe) :
    query recs name qb qe = bruteForce recs name qb qe ∧
    query exampleRecs "chr1" 2090 3000 = [⟨"chr1", 2090, 3000⟩] ∧
    query exampleRecs "chr2" 0 5 = [] := by
  refine ⟨?_, by decide, by decide⟩
  unfold query bruteForce
  rw [List.filter_filter]
  apply List.filter_congr
  intro r hr
  cases hov : overlaps r.start r.stop qb qe with
  | false => simp [hov]
  | true =>
    cases hseq : decide (r.seq = name) with
    | false => simp [hseq]
    | true =>
      simp only [hov, hseq, Bool.and_true, Bool.true_and]
      have hparts : r.start < qe ∧ qb < r.stop := by
        simpa [overlaps] using hov
      exact List.elem_iff.mpr
        (binOf_mem_binsOverlapping (hv r hr) hq hparts.1 hparts.2)

theorem c1_overlap_exact_witness :
    query exampleRecs "chr1" 2090 3000 = bruteForce exampleRecs "chr1" 2090 3000 :=
  (c1_overlap_exact exampleRecs "chr1" 2090 3000 (by decide) (by decide)).1

/-- C2: region strings are 1-based inclusive externally and 0-based half-open
internally: "chr1:2090-3000" parses to (chr1, 2089, 3000), so the string
query "chr1:2090-3000" does return the record spanning [1737, 2090); a bare
"chr1" parses to the whole-sequence range [0, sentinel). -/
theorem c2_region_parsing :
    parseRegion ["chr1", "chr2"] "chr1:2090-3000" = Except.ok ⟨"chr1", 2089, 3000⟩ ∧
    parseRegion ["chr1", "chr2"] "chr1" = Except.ok ⟨"chr1", 0, sequenceMaxEnd⟩ ∧
    queryString ["chr1", "chr2"] exampleRecs "chr1:2090-3000" =
      Except.ok [⟨"chr1", 1737, 2090⟩, ⟨"chr1", 2090, 3000⟩] := by
  refine ⟨by decide, by decide, by decide⟩

/-- C5: a query whose sequence name is not in the index's dictionary
(exact match required) fails UnknownSequence; in particular
query("chr3", 0, 5) on the example index fails UnknownSequence rather than
returning an empty sequence. -/
theorem c5_unknown_sequence (names : List String) (recs : List Record)
    (name : String) (qb qe : Nat) (h : names.contains name = false) :
    queryEngine names recs name qb qe = Except.error TabixError.UnknownSequence ∧
    queryEngine ["chr1", "chr2"] exampleRecs "chr3" 0 5 =
      Except.error TabixError.UnknownSequence := by
  refine ⟨?_, by decide⟩
  unfold queryEngine
  rw [h]
  simp

theorem c5_unknown_sequence_witness :
    queryEngine ["chr1", "chr2"] exampleRecs "chr3" 0 5 =
      Except.error TabixError.UnknownSequence :=
  (c5_unknown_sequence ["chr1", "chr2"] exampleRecs "chr3" 0 5 (by decide)).1

lemma buildGo_error : ∀ (l : List Record) (prev : Option Record),
    hasDecreasingPair l = true →
    buildGo prev l = Except.error TabixError.UnsortedInput
  | [], _, h => by simp [hasDecreasingPair] at h
  | [_], _, h => by simp [hasDecreasingPair] at h
  | r1 :: r2 :: rest, prev, h => by
    unfold buildGo
    split
    · rfl
    · rw [hasDecreasingPair] at h
      cases hb : badPair r1 r2 with
      | true =>
        rw [buildGo]
        simp [hb, Except.map]
      | false =>
        have h2 : hasDecreasingPair (r2 :: rest) = true := by
          simpa [hb] using h
        rw [buildGo_error (r2 :: rest) (some r1) h2]
        rfl

/-- C3: any input with a decreasing start coordinate within one sequence
makes the build fail UnsortedInput, and no index artifact is produced on
that path (there is no record list the build returns). -/
theorem c3_unsorted_input (recs : List Record)
    (h : hasDecreasingPair recs = true) :
    buildIndex recs = Except.error TabixError.UnsortedInput ∧
    ∀ idx, buildIndex recs ≠ Except.ok idx := by
  have he : buildIndex recs = Except.error TabixError.UnsortedInput :=
    buildGo_error recs none h
  exact ⟨he, fun idx hok => by rw [he] at hok; exact Except.noConfusion hok⟩

theorem c3_unsorted_input_witness :
    buildIndex [⟨"chr1", 5, 9⟩, ⟨"chr1", 3, 9⟩] =
      Except.error TabixError.UnsortedInput ∧
    ∀ idx, buildIndex [⟨"chr1", 5, 9⟩, ⟨"chr1", 3, 9⟩] ≠ Except.ok idx :=
  c3_unsorted_input [⟨"chr1", 5, 9⟩, ⟨"chr1", 3, 9⟩] (by decide)

lemma pulls_finished_destroyed : ∀ (n : Nat) (g : GenState),
    (g.phase = GenPhase.finished → g.destroyed = true) →
    ((pulls n g).phase = GenPhase.finished → (pulls n g).destroyed = true)
  | 0, _, hg => hg
  | n + 1, g, hg => by
    rw [pulls]
    refine pulls_finished_destroyed n (genNext g).2 ?_
    match hph : g.phase with
    | GenPhase.finished => intro _; simp [genNext, hph]; exact hg hph
    | GenPhase.running [] => intro _; simp [genNext, hph, finallyClause, tiIterDestroy]
    | GenPhase.running (s :: rest) => simp [genNext, hph]

lemma pulls_drain_destroyed : ∀ (records : List String) (d : Bool),
    (pulls (records.length + 1) ⟨GenPhase.running records, d⟩).destroyed = true
  | [], _ => by simp [pulls, genNext, finallyClause, tiIterDestroy]
  | _ :: rest, d => by
    have := pulls_drain_destroyed rest d
    simpa [pulls, genNext] using this

/-- C4: on every exit path of a query iterator — full consumption, early
abandonment by the caller after any number of pulls, or an error raised
while iterating — the native iterator handle ends up destroyed. -/
theorem c4_iterator_cleanup (records : List String) (n : Nat) :
    (pulls (records.length + 1) (initGen records)).destroyed = true ∧
    (genClose (pulls n (initGen records))).destroyed = true ∧
    (genThrow (pulls n (initGen records))).destroyed = true := by
  have hinv : (pulls n (initGen records)).phase = GenPhase.finished →
      (pulls n (initGen records)).destroyed = true :=
    pulls_finished_destroyed n (initGen records) (by simp [initGen])
  refine ⟨pulls_drain_destroyed records false, ?_, ?_⟩
  · match hph : (pulls n (initGen records)).phase with
    | GenPhase.finished => simpa [genClose, hph] using hinv hph
    | GenPhase.running l => simp [genClose, hph, finallyClause, tiIterDestroy]
  · match hph : (pulls n (initGen records)).phase with
    | GenPhase.finished => simpa [genThrow, hph] using hinv hph
    | GenPhase.running l => simp [genThrow, hph, finallyClause, tiIterDestroy]

lemma suffix_eq_of_length {s1 s2 l : List Char} (h1 : s1 <:+ l) (h2 : s2 <:+ l)
    (hlen : s1.length = s2.length) : s1 = s2 := by
  obtain ⟨t1, ht1⟩ := h1
  obtain ⟨t2, ht2⟩ := h2
  have heq : t1 ++ s1 = t2 ++ s2 := ht1.trans ht2.symm
  have hl : t1.length = t2.length := by
    have := congrArg List.length heq
    simp only [List.length_append] at this
    omega
  exact (List.append_inj heq hl).2

/-- Two extension tests with distinct same-length suffix strings cannot both
succeed on one file name. -/
lemma endsWithStr_excl {fn a b : String} (ha : endsWithStr fn a = true)
    (hne : a.data ≠ b.data) (hlen : a.data.length = b.data.length) :
    endsWithStr fn b = false := by
  cases hb : endsWithStr fn b with
  | false => rfl
  | true =>
    exact absurd
      (suffix_eq_of_length
        (List.isSuffixOf_iff_suffix.mp ha) (List.isSuffixOf_iff_suffix.mp hb) hlen)
      hne

/-- C6 counterexample: for a path with no companion .tbi whose extension is
recognized, the constructor itself builds the index (with the bed defaults
here) and opens it — it does not fail IndexMissing and it does trigger a
build. -/
theorem c6_counterexample :
    tabixInit "example.bed.gz" false = InitAction.buildThenOpen ⟨1, 2, 3, '#', 0⟩ := by
  decide

/-- C6 (amended): for a path with no companion index file the constructor
never fails IndexMissing: if the extension is unrecognized it raises an
exception ("<fn>.tbi not found and filetype not known") and builds nothing,
and for a recognized extension it builds the index itself and then opens
it. -/
theorem c6_no_index_dispatch (fn : String)
    (h1 : endsWithStr fn ".bed.gz" = false)
    (h2 : endsWithStr fn ".gff.gz" = false)
    (h3 : endsWithStr fn ".gtf.gz" = false)
    (h4 : endsWithStr fn ".vcf.gz" = false) :
    tabixInit fn false = InitAction.raised (fn ++ ".tbi not found and filetype not known") ∧
    (∀ conf, tabixInit fn false ≠ InitAction.buildThenOpen conf) ∧
    tabixInit "example.bed.gz" false = InitAction.buildThenOpen ⟨1, 2, 3, '#', 0⟩ := by
  have hr : tabixInit fn false =
      InitAction.raised (fn ++ ".tbi not found and filetype not known") := by
    unfold tabixInit
    rw [h1, h2, h3, h4]
    simp
  refine ⟨hr, fun conf hc => by rw [hr] at hc; exact InitAction.noConfusion hc, by decide⟩

theorem c6_no_index_dispatch_witness :
    tabixInit "data.txt.gz" false =
      InitAction.raised ("data.txt.gz" ++ ".tbi not found and filetype not known") :=
  (c6_no_index_dispatch "data.txt.gz" (by decide) (by decide) (by decide) (by decide)).1

/-- C9: the constructor's behaviour for an absent .tbi is decided by the file
extension — .bed.gz builds with columns (1, 2, 3), .gff.gz/.gtf.gz with
(1, 4, 5), .vcf.gz with (1, 2, 0), each with comment '#' and zero header
lines skipped, then opens the freshly built index; any other extension
raises and opens no handle. -/
theorem c9_extension_dispatch (fn : String) :
    (endsWithStr fn ".bed.gz" = true →
      tabixInit fn false = InitAction.buildThenOpen ⟨1, 2, 3, '#', 0⟩) ∧
    (endsWithStr fn ".gff.gz" = true →
      tabixInit fn false = InitAction.buildThenOpen ⟨1, 4, 5, '#', 0⟩) ∧
    (endsWithStr fn ".gtf.gz" = true →
      tabixInit fn false = InitAction.buildThenOpen ⟨1, 4, 5, '#', 0⟩) ∧
    (endsWithStr fn ".vcf.gz" = true →
      tabixInit fn false = InitAction.buildThenOpen ⟨1, 2, 0, '#', 0⟩) ∧
    (endsWithStr fn ".bed.gz" = false → endsWithStr fn ".gff.gz" = false →
      endsWithStr fn ".gtf.gz" = false → endsWithStr fn ".vcf.gz" = false →
      tabixInit fn false =
        InitAction.raised (fn ++ ".tbi not found and filetype not known")) := by
  refine ⟨?_, ?_, ?_, ?_, ?_⟩
  · intro hb
    unfold tabixInit
    rw [hb]
    simp
  · intro hg
    have hb : endsWithStr fn ".bed.gz" = false :=
      endsWithStr_excl hg (by decide) (by decide)
    unfold tabixInit
    rw [hb, hg]
    simp
  · intro hg
    have hb : endsWithStr fn ".bed.gz" = false :=
      endsWithStr_excl hg (by decide) (by decide)
    have hgf : endsWithStr fn ".gff.gz" = false :=
      endsWithStr_excl hg (by decide) (by decide)
    unfold tabixInit
    rw [hb, hg, hgf]
    simp
  · intro hv
    have hb : endsWithStr fn ".bed.gz" = false :=
      endsWithStr_excl hv (by decide) (by decide)
    have hgf : endsWithStr fn ".gff.gz" = false :=
      endsWithStr_excl hv (by decide) (by decide)
    have hgt : endsWithStr fn ".gtf.gz" = false :=
      endsWithStr_excl hv (by decide) (by decide)
    unfold tabixInit
    rw [hb, hgf, hgt, hv]
    simp
  · intro h1 h2 h3 h4
    unfold tabixInit
    rw [h1, h2, h3, h4]
    simp

theorem c9_extension_dispatch_witness :
    tabixInit "a.gtf.gz" false = InitAction.buildThenOpen ⟨1, 4, 5, '#', 0⟩ :=
  (c9_extension_dispatch "a.gtf.gz").2.2.1 (by decide)

/-- C7 counterexample: a first close on an open handle succeeds and frees
it, but a second close is not a no-op success on the freed handle — close is
not idempotent. -/
theorem c7_counterexample :
    tabixClose HandleState.allocated = Except.ok HandleState.freed ∧
    tabixClose HandleState.freed ≠ Except.ok HandleState.freed := by
  refine ⟨rfl, fun h => Except.noConfusion h⟩

/-- C7 (amended): close releases the handle on the first call, but it is not
idempotent — with no closed-guard in the wrapper a second close re-invokes
the native destroy on the already-freed raw handle, a double-free fault;
only __del__ tolerates an already-closed handle, because it swallows every
exception. -/
theorem c7_close_not_idempotent :
    tabixClose HandleState.allocated = Except.ok HandleState.freed ∧
    tabixClose HandleState.freed = Except.error NativeFault.doubleFree ∧
    tabixDel HandleState.allocated = HandleState.freed ∧
    tabixDel HandleState.freed = HandleState.freed := by
  refine ⟨rfl, rfl, rfl, rfl⟩

/-- C8: listSequences returns the sequence names as an ordered sequence in
dictionary order (0-based insertion order); for the example file it returns
["chr1", "chr2"]. -/
theorem c8_sequences_order (dict : List String) :
    tabixSequences dict = dict ∧
    tabixSequences ["chr1", "chr2"] = ["chr1", "chr2"] := by
  refine ⟨?_, by decide⟩
  apply List.ext_getElem
  · simp [tabixSequences]
  · intro i h1 h2
    simp only [tabixSequences, List.getElem_map, List.getElem_range, ti_seqname]
    exact List.getD_eq_getElem dict "" h2

/-- C10: a query call with start omitted but end provided fails the
assertion before any native query is issued — no native query value is ever
produced on that path, so no iterator is created and the engine state is
unchanged. -/
theorem c10_assert_start_none (region : String) (e : Int) :
    callDispatch region none (some e) = Except.error PyError.assertionError ∧
    ∀ q, callDispatch region none (some e) ≠ Except.ok q := by
  exact ⟨rfl, fun q h => Except.noConfusion h⟩

theorem c4_iterator_cleanup_witness :
    (genClose (pulls 1 (initGen ["line1", "line2"]))).destroyed = true :=
  (c4_iterator_cleanup ["line1", "line2"] 1).2.1

theorem c8_sequences_order_witness :
    tabixSequences ["chr1", "chr2"] = ["chr1", "chr2"] :=
  (c8_sequences_order ["chr1", "chr2"]).2

theorem c10_assert_start_none_witness :
    callDispatch "chr1" none (some 5) = Except.error PyError.assertionError :=
  (c10_assert_start_none "chr1" 5).1
